import Mathlib

/-!
Verification of the nexus2D platformer core against its specification.

The embedding is shallow: every definition below is translated directly from
the TypeScript source (file and symbol named in each doc comment).  JavaScript
numbers are modelled as exact rationals; `Math.random()` draws are modelled as
an explicit stream `rand : ℕ → ℚ` consumed in source order, and `Math.sin` as
an explicit table argument, since the level generator only uses those values
as opaque numbers.  JavaScript `Map` objects keyed by power-up kind are
modelled as functions `PowerUpType → Option ℚ`; the source mutates distinct,
disjoint fields per key, so iteration order is irrelevant and a fixed key
order is used.
-/

namespace Nexus2D

/-! ## Geometry: src/game/utils/Rectangle.ts -/

/-- Axis-aligned rectangle, `Rectangle` from src/game/utils/Rectangle.ts. -/
structure Rectangle where
  x : ℚ
  y : ℚ
  width : ℚ
  height : ℚ
deriving DecidableEq

/-- Getter `left` of Rectangle.ts. -/
def Rectangle.left (r : Rectangle) : ℚ := r.x

/-- Getter `right` of Rectangle.ts. -/
def Rectangle.right (r : Rectangle) : ℚ := r.x + r.width

/-- Getter `top` of Rectangle.ts. -/
def Rectangle.top (r : Rectangle) : ℚ := r.y

/-- Getter `bottom` of Rectangle.ts. -/
def Rectangle.bottom (r : Rectangle) : ℚ := r.y + r.height

/-- Getter `centerX` of Rectangle.ts. -/
def Rectangle.centerX (r : Rectangle) : ℚ := r.x + r.width / 2

/-- Getter `centerY` of Rectangle.ts. -/
def Rectangle.centerY (r : Rectangle) : ℚ := r.y + r.height / 2

/-- `Rectangle.intersects`: true unless separated on some axis; the
separation comparisons are non-strict, so exactly-touching edges do not
intersect. -/
def Rectangle.intersects (a b : Rectangle) : Bool :=
  !(decide (a.right ≤ b.left) || decide (a.left ≥ b.right) ||
    decide (a.bottom ≤ b.top) || decide (a.top ≥ b.bottom))

/-- `Rectangle.overlaps`: penetration depth on each axis (may be negative
when the rectangles do not intersect). -/
def Rectangle.overlaps (a b : Rectangle) : ℚ × ℚ :=
  (min (a.right - b.left) (b.right - a.left),
   min (a.bottom - b.top) (b.bottom - a.top))

/-! ## Core data model -/

/-- `Vector2` from src/game/utils/Vector2.ts (component pair). -/
structure Vector2 where
  x : ℚ
  y : ℚ
deriving DecidableEq

/-- `PlatformType` from src/game/entities/Platform.ts. -/
inductive PlatformType where
  | ground
  | floating
  | moving
  | breakable
deriving DecidableEq

/-- `Platform` from src/game/entities/Platform.ts (the fields read by the
collision and generation code; the moving-platform animation state is not
needed by any claim). -/
structure Platform where
  x : ℚ
  y : ℚ
  width : ℚ
  height : ℚ
  type : PlatformType
deriving DecidableEq

/-- `Platform.getBounds`. -/
def Platform.getBounds (p : Platform) : Rectangle :=
  ⟨p.x, p.y, p.width, p.height⟩

/-- `Level`'s fields read by `Player.update` / `Enemy.update`
(src/game/Level.ts): stage size and the platform list. -/
structure Level where
  width : ℚ
  height : ℚ
  platforms : List Platform

/-- `PowerUpType` from src/game/entities/Player.ts. -/
inductive PowerUpType where
  | speed
  | jump
  | size
  | invincible
deriving DecidableEq

/-- `Map.set` on the power-up timer map (keys are unique). -/
def mapSet (m : PowerUpType → Option ℚ) (k : PowerUpType) (v : ℚ) :
    PowerUpType → Option ℚ :=
  fun k2 => if k2 = k then some v else m k2

/-- `Map.delete` on the power-up timer map. -/
def mapDelete (m : PowerUpType → Option ℚ) (k : PowerUpType) :
    PowerUpType → Option ℚ :=
  fun k2 => if k2 = k then none else m k2

/-- The `InputManager.isPressed` answers consumed by `Player.handleInput`,
one flag per canonical key name. -/
structure Input where
  left : Bool
  right : Bool
  up : Bool
  down : Bool
  a : Bool
  d : Bool
  w : Bool
  s : Bool
  space : Bool
  shift : Bool
deriving DecidableEq

/-- All keys released. -/
def Input.none : Input := ⟨false, false, false, false, false, false, false, false, false, false⟩

/-- `Player` from src/game/entities/Player.ts.  `gravity` (1200) and
`friction` (0.8) are instance fields in the source but are never written, so
they appear below as the constants `playerGravity` and `playerFriction`.
`basePowerValues` holds exactly the keys `speed`, `jumpPower`, `maxSpeed`,
written once in the constructor, modelled as the three `base*` fields. -/
structure Player where
  x : ℚ
  y : ℚ
  velocity : Vector2
  width : ℚ
  height : ℚ
  speed : ℚ
  jumpPower : ℚ
  maxSpeed : ℚ
  isGrounded : Bool
  isRunning : Bool
  facingRight : Bool
  invulnerabilityTimer : ℚ
  animationFrame : ℕ
  animationTimer : ℚ
  powerUpTimers : PowerUpType → Option ℚ
  baseSpeed : ℚ
  baseJumpPower : ℚ
  baseMaxSpeed : ℚ

/-- Player gravity constant (1200 in Player.ts). -/
def playerGravity : ℚ := 1200

/-- Player friction constant (0.8 in Player.ts). -/
def playerFriction : ℚ := 4 / 5

/-- Animation frame period (0.1 in Player.ts). -/
def playerAnimationSpeed : ℚ := 1 / 10

/-- The `Player` constructor: default stats, base values stored from the
initial stats. -/
def mkPlayer (x y : ℚ) : Player where
  x := x
  y := y
  velocity := ⟨0, 0⟩
  width := 32
  height := 48
  speed := 200
  jumpPower := 400
  maxSpeed := 300
  isGrounded := false
  isRunning := false
  facingRight := true
  invulnerabilityTimer := 0
  animationFrame := 0
  animationTimer := 0
  powerUpTimers := fun _ => none
  baseSpeed := 200
  baseJumpPower := 400
  baseMaxSpeed := 300

/-- `Player.getBounds`. -/
def Player.getBounds (p : Player) : Rectangle :=
  ⟨p.x, p.y, p.width, p.height⟩

/-- `Player.handleInput` (Player.ts lines 53-80), as a single state change:
directional input accelerates and sets facing/running, the shift modifier
multiplies the frame velocity by 1.5, a grounded jump sets the upward
velocity, then friction and the max-speed clamp apply. -/
def Player.handleInput (p : Player) (input : Input) (deltaTime : ℚ) : Player :=
  let moveLeft := input.left || input.a
  let moveRight := input.right || input.d
  let vx1 := if moveLeft then p.velocity.x - p.speed * deltaTime
    else if moveRight then p.velocity.x + p.speed * deltaTime
    else p.velocity.x
  let facing := if moveLeft then false else if moveRight then true else p.facingRight
  let running := moveLeft || moveRight
  let runMultiplier : ℚ := if input.shift && running then 3 / 2 else 1
  let vx2 := vx1 * runMultiplier
  let jumping := (input.space || input.up || input.w) && p.isGrounded
  let vy := if jumping then -p.jumpPower else p.velocity.y
  let grounded := if jumping then false else p.isGrounded
  let vx3 := vx2 * playerFriction
  let vx4 := max (-p.maxSpeed) (min p.maxSpeed vx3)
  { p with velocity := ⟨vx4, vy⟩, facingRight := facing, isRunning := running,
           isGrounded := grounded }

/-- One platform of `Player.checkPlatformCollisions`'s forEach body
(Player.ts lines 106-137).  `playerBounds` is the rectangle captured before
the loop: the source computes it once, so the intersection test, the overlap
amounts and the center comparisons all use the pre-resolution bounds even
when an earlier platform already moved the player. -/
def resolvePlayerAgainst (playerBounds : Rectangle) (platformBounds : Rectangle)
    (p : Player) : Player :=
  if playerBounds.intersects platformBounds then
    let overlapX := min (playerBounds.right - platformBounds.left)
      (platformBounds.right - playerBounds.left)
    let overlapY := min (playerBounds.bottom - platformBounds.top)
      (platformBounds.bottom - playerBounds.top)
    if overlapX < overlapY then
      if playerBounds.centerX < platformBounds.centerX then
        { p with x := platformBounds.left - p.width, velocity := ⟨0, p.velocity.y⟩ }
      else
        { p with x := platformBounds.right, velocity := ⟨0, p.velocity.y⟩ }
    else
      if playerBounds.centerY < platformBounds.centerY then
        { p with y := platformBounds.top - p.height, velocity := ⟨p.velocity.x, 0⟩,
                 isGrounded := true }
      else
        { p with y := platformBounds.bottom, velocity := ⟨p.velocity.x, 0⟩ }
  else p

/-- `Player.checkPlatformCollisions` (Player.ts lines 102-138): reset
`isGrounded`, then resolve against each platform in order. -/
def Player.checkPlatformCollisions (p : Player) (platforms : List Platform) : Player :=
  let playerBounds := p.getBounds
  platforms.foldl
    (fun acc platform => resolvePlayerAgainst playerBounds platform.getBounds acc)
    { p with isGrounded := false }

/-- `Player.respawn` (Player.ts lines 225-229). -/
def Player.respawn (p : Player) : Player :=
  { p with x := 100, y := 400, velocity := ⟨0, 0⟩ }

/-- `Player.updatePhysics` (Player.ts lines 82-100): gravity, integration,
platform resolution, the horizontal clamp to `[0, level.width - width]`, and
the fall-off respawn. -/
def Player.updatePhysics (p : Player) (deltaTime : ℚ) (level : Level) : Player :=
  let vy1 := p.velocity.y + playerGravity * deltaTime
  let x1 := p.x + p.velocity.x * deltaTime
  let y1 := p.y + vy1 * deltaTime
  let p1 := Player.checkPlatformCollisions
    { p with velocity := ⟨p.velocity.x, vy1⟩, x := x1, y := y1 } level.platforms
  let p2 := { p1 with x := max 0 (min (level.width - p1.width) p1.x) }
  if p2.y > level.height + 100 then p2.respawn else p2

/-- `Player.removePowerUp` (Player.ts lines 192-206): restore the affected
stats from the stored base values (`size` restores the literal 32x48). -/
def Player.removePowerUp (p : Player) (type : PowerUpType) : Player :=
  match type with
  | .speed => { p with speed := p.baseSpeed, maxSpeed := p.baseMaxSpeed }
  | .jump => { p with jumpPower := p.baseJumpPower }
  | .size => { p with width := 32, height := 48 }
  | .invincible => p

/-- One key of `Player.updatePowerUps`'s forEach body (Player.ts lines
142-150): decrement the timer; at or below zero restore the stat and delete
the key, otherwise store the decremented timer. -/
def tickPowerUp (deltaTime : ℚ) (p : Player) (type : PowerUpType) : Player :=
  match p.powerUpTimers type with
  | none => p
  | some timer =>
    let newTimer := timer - deltaTime
    if newTimer ≤ 0 then
      let q := p.removePowerUp type
      { q with powerUpTimers := mapDelete q.powerUpTimers type }
    else
      { p with powerUpTimers := mapSet p.powerUpTimers type newTimer }

/-- `Player.updatePowerUps` (Player.ts lines 140-151).  The JS `Map` is
iterated in insertion order; each key's action touches only that key's entry
and its own disjoint stat fields, so a fixed key order is an equivalent
model. -/
def Player.updatePowerUps (p : Player) (deltaTime : ℚ) : Player :=
  [PowerUpType.speed, PowerUpType.jump, PowerUpType.size, PowerUpType.invincible].foldl
    (tickPowerUp deltaTime) p

/-- `Player.updateAnimation` (Player.ts lines 153-163). -/
def Player.updateAnimation (p : Player) (deltaTime : ℚ) : Player :=
  if p.isRunning && p.isGrounded then
    let t := p.animationTimer + deltaTime
    if t ≥ playerAnimationSpeed then
      { p with animationFrame := (p.animationFrame + 1) % 4, animationTimer := 0 }
    else
      { p with animationTimer := t }
  else
    { p with animationFrame := 0 }

/-- `Player.updateInvulnerability` (Player.ts lines 165-169). -/
def Player.updateInvulnerability (p : Player) (deltaTime : ℚ) : Player :=
  if p.invulnerabilityTimer > 0 then
    { p with invulnerabilityTimer := p.invulnerabilityTimer - deltaTime }
  else p

/-- `Player.update` (Player.ts lines 45-51): the five phases in source
order. -/
def Player.update (p : Player) (deltaTime : ℚ) (input : Input) (level : Level) : Player :=
  ((((p.handleInput input deltaTime).updatePhysics deltaTime level).updatePowerUps
      deltaTime).updateAnimation deltaTime).updateInvulnerability deltaTime

/-- `Player.applyPowerUp` (Player.ts lines 171-190): set the 10-second timer,
then mutate the affected stat from the stored base value. -/
def Player.applyPowerUp (p : Player) (type : PowerUpType) : Player :=
  let p1 := { p with powerUpTimers := mapSet p.powerUpTimers type 10 }
  match type with
  | .speed => { p1 with speed := p1.baseSpeed * (3 / 2), maxSpeed := p1.baseMaxSpeed * (3 / 2) }
  | .jump => { p1 with jumpPower := p1.baseJumpPower * (13 / 10) }
  | .size => { p1 with width := 24, height := 36 }
  | .invincible => { p1 with invulnerabilityTimer := 10 }

/-- `Player.isInvulnerable` (Player.ts lines 221-223). -/
def Player.isInvulnerable (p : Player) : Bool :=
  decide (p.invulnerabilityTimer > 0) || (p.powerUpTimers PowerUpType.invincible).isSome

/-- `Player.takeDamage` (Player.ts lines 208-215). -/
def Player.takeDamage (p : Player) : Player :=
  if p.isInvulnerable then p
  else
    { p with invulnerabilityTimer := 2,
             velocity := ⟨if p.facingRight then -200 else 200, -150⟩ }

/-! ## Enemy: src/game/entities/Enemy.ts -/

/-- `EnemyType` from Enemy.ts. -/
inductive EnemyType where
  | goomba
  | koopa
  | spiky
  | flying
deriving DecidableEq

/-- `Enemy` from Enemy.ts (the fields used by ground movement and platform
resolution). -/
structure Enemy where
  x : ℚ
  y : ℚ
  width : ℚ
  height : ℚ
  type : EnemyType
  velocity : Vector2
  speed : ℚ
  direction : ℚ
  health : ℤ
  isGrounded : Bool
deriving DecidableEq

/-- `Enemy.getBounds`. -/
def Enemy.getBounds (e : Enemy) : Rectangle :=
  ⟨e.x, e.y, e.width, e.height⟩

/-- One platform of `Enemy.checkPlatformCollisions`'s forEach body (Enemy.ts
lines 112-132).  As for the player, `enemyBounds` is captured before the
loop.  On the smaller horizontal overlap the enemy reverses direction and
snaps to the platform edge (its horizontal velocity is not zeroed); on the
vertical branch only the landed-on-top case does anything. -/
def resolveEnemyAgainst (enemyBounds : Rectangle) (platformBounds : Rectangle)
    (e : Enemy) : Enemy :=
  if enemyBounds.intersects platformBounds then
    let overlapX := min (enemyBounds.right - platformBounds.left)
      (platformBounds.right - enemyBounds.left)
    let overlapY := min (enemyBounds.bottom - platformBounds.top)
      (platformBounds.bottom - enemyBounds.top)
    if overlapX < overlapY then
      let e1 := { e with direction := -e.direction }
      if enemyBounds.centerX < platformBounds.centerX then
        { e1 with x := platformBounds.left - e.width }
      else
        { e1 with x := platformBounds.right }
    else
      if enemyBounds.centerY < platformBounds.centerY then
        { e with y := platformBounds.top - e.height, velocity := ⟨e.velocity.x, 0⟩,
                 isGrounded := true }
      else e
  else e

/-- `Enemy.checkPlatformCollisions` (Enemy.ts lines 105-134). -/
def Enemy.checkPlatformCollisions (e : Enemy) (platforms : List Platform) : Enemy :=
  let enemyBounds := e.getBounds
  platforms.foldl
    (fun acc platform => resolveEnemyAgainst enemyBounds platform.getBounds acc)
    { e with isGrounded := false }

/-! ## GameState: src/game/GameState.ts -/

/-- `GameState` from GameState.ts (the persistence hook is an external
collaborator; `saveToStorage` has no effect on these fields). -/
structure GameState where
  score : ℚ
  lives : ℚ
  currentLevel : ℕ
  highScore : ℚ
  achievements : List String

/-- Achievement id for 10,000 points. -/
def achScore10k : String := "score_10k"

/-- Achievement id for 50,000 points. -/
def achScore50k : String := "score_50k"

/-- `GameState.checkScoreAchievements` (GameState.ts lines 46-56): may append
achievement ids, touching no other field. -/
def GameState.checkScoreAchievements (gs : GameState) : GameState :=
  let gs1 := if gs.score ≥ 10000 ∧ ¬ gs.achievements.contains achScore10k then
    { gs with achievements := gs.achievements ++ [achScore10k] } else gs
  if gs1.score ≥ 50000 ∧ ¬ gs1.achievements.contains achScore50k then
    { gs1 with achievements := gs1.achievements ++ [achScore50k] } else gs1

/-- `GameState.addScore` (GameState.ts lines 13-22): add the points, raise
`highScore` when the new score exceeds it, then check achievements. -/
def GameState.addScore (gs : GameState) (points : ℚ) : GameState :=
  let score1 := gs.score + points
  let gs1 := if score1 > gs.highScore then
    { gs with score := score1, highScore := score1 }
  else
    { gs with score := score1 }
  gs1.checkScoreAchievements

/-- `GameState.loseLife` (GameState.ts lines 24-26). -/
def GameState.loseLife (gs : GameState) : GameState :=
  { gs with lives := max 0 (gs.lives - 1) }

/-- `GameState.gainLife` (GameState.ts lines 28-30). -/
def GameState.gainLife (gs : GameState) : GameState :=
  { gs with lives := min 9 (gs.lives + 1) }

/-! ## Level generation: src/game/Level.ts -/

/-- Stage width set in the `Level` constructor. -/
def levelWidth : ℚ := 2048

/-- Stage height set in the `Level` constructor. -/
def levelHeight : ℚ := 576

/-- The ground row of `Level.generatePlatforms`: the loop
`for (x = 0; x < 2048; x += 128)` runs exactly for `x = 128·i`, `i < 16`,
each iteration pushing a 128x64 ground platform at floor height. -/
def groundPlatforms : List Platform :=
  (List.range 16).map fun (i : ℕ) =>
    ⟨128 * (i : ℚ), levelHeight - 64, 128, 64, PlatformType.ground⟩

/-- The floating platforms of `Level.generatePlatforms`: count
`8 + 2·min(levelNumber, 5)`; the i-th sits at an evenly spaced slot with a
sinusoidal-plus-random vertical scatter and a random width.  `rand k` is the
k-th `Math.random()` draw of this loop (two per iteration, in source order)
and `sinTable i` stands for `Math.sin(i * 0.5)`. -/
def floatingPlatforms (levelNumber : ℕ) (rand : ℕ → ℚ) (sinTable : ℕ → ℚ) :
    List Platform :=
  let difficulty := min levelNumber 5
  let platformCount := 8 + difficulty * 2
  (List.range platformCount).map fun (i : ℕ) =>
    ⟨200 + ((i : ℚ) * (levelWidth - 400)) / (platformCount : ℚ),
     200 + sinTable i * 100 + rand (2 * i) * 100,
     96 + rand (2 * i + 1) * 64,
     24, PlatformType.floating⟩

/-- The moving platforms of `Level.generatePlatforms`: two, only when
`levelNumber >= 3`. -/
def movingPlatforms (levelNumber : ℕ) : List Platform :=
  if 3 ≤ levelNumber then
    (List.range 2).map fun (i : ℕ) =>
      ⟨600 + (i : ℚ) * 400, 300 + (i : ℚ) * 50, 128, 24, PlatformType.moving⟩
  else []

/-- `Level.generatePlatforms` (Level.ts lines 41-68): ground row, then
floating platforms, then moving platforms. -/
def generatePlatforms (levelNumber : ℕ) (rand : ℕ → ℚ) (sinTable : ℕ → ℚ) :
    List Platform :=
  groundPlatforms ++ floatingPlatforms levelNumber rand sinTable
    ++ movingPlatforms levelNumber

/-- A ground platform list is a gapless tiling from `a` to the level width:
each platform's left edge continues exactly where the previous one ended. -/
def tilesFrom (a : ℚ) : List Platform → Bool
  | [] => decide (a = levelWidth)
  | platform :: rest =>
    decide (platform.x = a) && tilesFrom (platform.x + platform.width) rest

/-- `CollectibleType` from src/game/entities/Collectible.ts. -/
inductive CollectibleType where
  | coin
  | gem
  | star
deriving DecidableEq

/-- A generated collectible (position and type; per-type size/value/color
are fixed in the `Collectible` constructor and not needed by any claim). -/
structure Collectible where
  x : ℚ
  y : ℚ
  type : CollectibleType
deriving DecidableEq

/-- The position-validity test of `Level.generateCollectibles` (Level.ts
lines 95-98): the drawn point lies inside some platform's rectangle
(inclusive bounds, as in the source). -/
def insideSomePlatform (platforms : List Platform) (x y : ℚ) : Bool :=
  platforms.any fun platform =>
    decide (x ≥ platform.x) && decide (x ≤ platform.x + platform.width) &&
    decide (y ≥ platform.y) && decide (y ≤ platform.y + platform.height)

/-- The loop of `Level.generateCollectibles` (Level.ts lines 90-104) with
`attempts` iterations left and `k` `Math.random()` draws consumed so far:
each iteration draws a position (two draws); an invalid draw is skipped
outright, a valid one draws the type (one more draw) and pushes the
collectible. -/
def generateCollectiblesAux (platforms : List Platform) (rand : ℕ → ℚ) :
    ℕ → ℕ → List Collectible
  | 0, _ => []
  | attempts + 1, k =>
    let x := 150 + rand k * (levelWidth - 300)
    let y := 100 + rand (k + 1) * (levelHeight - 200)
    if insideSomePlatform platforms x y then
      generateCollectiblesAux platforms rand attempts (k + 2)
    else
      ⟨x, y, if rand (k + 2) < 7 / 10 then CollectibleType.coin else CollectibleType.gem⟩
        :: generateCollectiblesAux platforms rand attempts (k + 3)

/-- `Level.generateCollectibles` (Level.ts lines 87-105): `15 + 3·levelNumber`
placement attempts against the already generated platforms. -/
def generateCollectibles (levelNumber : ℕ) (platforms : List Platform)
    (rand : ℕ → ℚ) : List Collectible :=
  generateCollectiblesAux platforms rand (15 + levelNumber * 3) 0

/-! ## Stat/timer projection used to reason about power-up expiry

The update phases other than `updatePowerUps` never write the stat fields,
the power-up timer map or the stored base values.  `PStats` collects exactly
those fields; `tickStats`/`tickAllStats` mirror `tickPowerUp`/`updatePowerUps`
on this projection. -/

/-- Run a sequence of frames (delta time and input per frame) of
`Player.update` against a fixed level. -/
def runUpdates (level : Level) (p : Player) (steps : List (ℚ × Input)) : Player :=
  steps.foldl (fun q s => q.update s.1 s.2 level) p

/-- The stat affected by power-up kind `t` in `p` equals its value in `p0`
(`invincible` has no separate stat: it is governed by the timer map and the
invulnerability timer alone). -/
def statRestored (t : PowerUpType) (p0 p : Player) : Prop :=
  match t with
  | .speed => p.speed = p0.speed ∧ p.maxSpeed = p0.maxSpeed
  | .jump => p.jumpPower = p0.jumpPower
  | .size => p.width = p0.width ∧ p.height = p0.height
  | .invincible => True

/-- The fields of `Player` read or written by `updatePowerUps`. -/
structure PStats where
  speed : ℚ
  maxSpeed : ℚ
  jumpPower : ℚ
  width : ℚ
  height : ℚ
  timers : PowerUpType → Option ℚ
  baseSpeed : ℚ
  baseJumpPower : ℚ
  baseMaxSpeed : ℚ

/-- Project a player onto its stat/timer fields. -/
def Player.stats (p : Player) : PStats :=
  ⟨p.speed, p.maxSpeed, p.jumpPower, p.width, p.height, p.powerUpTimers,
   p.baseSpeed, p.baseJumpPower, p.baseMaxSpeed⟩

/-- `Player.removePowerUp` on the projection. -/
def removeStats (s : PStats) (t : PowerUpType) : PStats :=
  match t with
  | .speed => { s with speed := s.baseSpeed, maxSpeed := s.baseMaxSpeed }
  | .jump => { s with jumpPower := s.baseJumpPower }
  | .size => { s with width := 32, height := 48 }
  | .invincible => s

/-- `tickPowerUp` on the projection. -/
def tickStats (deltaTime : ℚ) (s : PStats) (t : PowerUpType) : PStats :=
  match s.timers t with
  | none => s
  | some timer =>
    if timer - deltaTime ≤ 0 then
      let q := removeStats s t
      { q with timers := mapDelete q.timers t }
    else
      { s with timers := mapSet s.timers t (timer - deltaTime) }

/-- `Player.updatePowerUps` on the projection. -/
def tickAllStats (deltaTime : ℚ) (s : PStats) : PStats :=
  [PowerUpType.speed, PowerUpType.jump, PowerUpType.size, PowerUpType.invincible].foldl
    (tickStats deltaTime) s

/-- Iterated `tickAllStats` over a list of frame times. -/
def runStats (dts : List ℚ) (s : PStats) : PStats :=
  dts.foldl (fun s2 dt => tickAllStats dt s2) s

/-- The pair of stat values affected by kind `t` (the `jump` kind affects one
stat, duplicated; `invincible` affects none). -/
def pstatOf (t : PowerUpType) (s : PStats) : ℚ × ℚ :=
  match t with
  | .speed => (s.speed, s.maxSpeed)
  | .jump => (s.jumpPower, s.jumpPower)
  | .size => (s.width, s.height)
  | .invincible => (0, 0)

/-- The restoration target of kind `t`: the stored base values (`size`
restores the literal 32x48). -/
def pbaseOf (t : PowerUpType) (s : PStats) : ℚ × ℚ :=
  match t with
  | .speed => (s.baseSpeed, s.baseMaxSpeed)
  | .jump => (s.baseJumpPower, s.baseJumpPower)
  | .size => (32, 48)
  | .invincible => (0, 0)

/-! ## Concrete fixtures used by witnesses and counterexamples -/

/-- An all-zero random stream. -/
def rand0 : ℕ → ℚ := fun _ => 0

/-- A level with the generated stage size and no platforms (used to evaluate
updates of an airborne player). -/
def emptyLevel : Level := ⟨levelWidth, levelHeight, []⟩

/-- A player at the right edge, shrunk by an active `size` power-up that is
about to expire. -/
def edgeSizePlayer : Player :=
  { (mkPlayer 2030 100) with
    width := 24, height := 36,
    powerUpTimers := mapSet (fun _ => none) PowerUpType.size (1 / 1000) }

/-- A player positioned to land on the stage floor. -/
def landingPlayer : Player := mkPlayer 100 460

/-- A ground platform under `landingPlayer`. -/
def landingPlatform : Platform := ⟨0, 500, 2048, 64, PlatformType.ground⟩

/-- A goomba positioned to land on the stage floor. -/
def patrolEnemy : Enemy := ⟨100, 490, 24, 24, EnemyType.goomba, ⟨0, 5⟩, 60, -1, 1, false⟩

/-- A goomba overlapping the underside of a floating platform. -/
def undersideEnemy : Enemy :=
  ⟨10, 15, 24, 24, EnemyType.goomba, ⟨0, 5⟩, 60, -1, 1, false⟩

/-- A player with the same rectangle and velocity as `undersideEnemy`. -/
def undersidePlayer : Player :=
  { (mkPlayer 10 15) with width := 24, height := 24, velocity := ⟨0, 5⟩ }

/-- The platform whose underside `undersideEnemy` hits. -/
def undersidePlatform : Platform := ⟨0, 0, 100, 20, PlatformType.floating⟩

/-! ## Helper lemmas about the geometry -/

theorem intersects_eq_true_iff (a b : Rectangle) :
    a.intersects b = true ↔
      (b.left < a.right ∧ a.left < b.right ∧ b.top < a.bottom ∧ a.top < b.bottom) := by
  simp only [Rectangle.intersects, Bool.not_eq_true', Bool.or_eq_false_iff,
    decide_eq_false_iff_not, not_le, ge_iff_le]
  tauto

theorem intersects_eq_false_iff (a b : Rectangle) :
    a.intersects b = false ↔
      (a.right ≤ b.left ∨ b.right ≤ a.left ∨ a.bottom ≤ b.top ∨ b.bottom ≤ a.top) := by
  simp only [Rectangle.intersects, Bool.not_eq_false', Bool.or_eq_true_iff,
    decide_eq_true_eq, ge_iff_le]
  tauto

/-! ## C6: Rectangle intersection and overlap -/

/-- C6: `Rectangle.intersects` is the open-interval separation test, so
rectangles whose edges exactly touch do not intersect; and whenever
`intersects` is true, `Rectangle.overlaps` is non-negative on both axes. -/
theorem rectangle_intersects_open_overlaps_nonneg (a b : Rectangle) :
    (a.intersects b = true ↔
      (b.left < a.right ∧ a.left < b.right ∧ b.top < a.bottom ∧ a.top < b.bottom))
    ∧ (a.right = b.left → a.intersects b = false)
    ∧ (a.intersects b = true → 0 ≤ (a.overlaps b).1 ∧ 0 ≤ (a.overlaps b).2) := by
  refine ⟨intersects_eq_true_iff a b, ?_, ?_⟩
  · intro h
    rw [intersects_eq_false_iff]
    exact Or.inl (le_of_eq h)
  · intro h
    obtain ⟨h1, h2, h3, h4⟩ := (intersects_eq_true_iff a b).1 h
    simp only [Rectangle.overlaps]
    exact ⟨le_min (by linarith) (by linarith), le_min (by linarith) (by linarith)⟩

/-- Witness for C6 at concrete rectangles. -/
theorem rectangle_intersects_open_overlaps_nonneg_witness :
    0 ≤ ((Rectangle.mk 0 0 2 2).overlaps (Rectangle.mk 1 1 0 0)).1
    ∧ 0 ≤ ((Rectangle.mk 0 0 2 2).overlaps (Rectangle.mk 1 1 0 0)).2 :=
  (rectangle_intersects_open_overlaps_nonneg (Rectangle.mk 0 0 2 2)
    (Rectangle.mk 1 1 0 0)).2.2
    (by simp [Rectangle.intersects, Rectangle.right, Rectangle.left,
          Rectangle.top, Rectangle.bottom])

/-! ## C7: addScore monotonicity -/

theorem checkScoreAchievements_score (gs : GameState) :
    gs.checkScoreAchievements.score = gs.score := by
  simp only [GameState.checkScoreAchievements]
  split_ifs <;> rfl

theorem checkScoreAchievements_highScore (gs : GameState) :
    gs.checkScoreAchievements.highScore = gs.highScore := by
  simp only [GameState.checkScoreAchievements]
  split_ifs <;> rfl

theorem addScore_score (gs : GameState) (points : ℚ) :
    (gs.addScore points).score = gs.score + points := by
  simp only [GameState.addScore]
  split_ifs <;> simp [checkScoreAchievements_score]

theorem addScore_highScore (gs : GameState) (points : ℚ) :
    (gs.addScore points).highScore =
      if gs.highScore < gs.score + points then gs.score + points else gs.highScore := by
  simp only [GameState.addScore]
  rw [checkScoreAchievements_highScore]
  split_ifs with hc <;> rfl

/-- C7: `addScore` with the non-negative point amounts the game awards never
decreases the score, and `highScore` becomes the maximum of the old high
score and the new score — it never goes down. -/
theorem addScore_monotone (gs : GameState) (points : ℚ) (h : 0 ≤ points) :
    gs.score ≤ (gs.addScore points).score
    ∧ (gs.addScore points).highScore = max gs.highScore (gs.addScore points).score
    ∧ gs.highScore ≤ (gs.addScore points).highScore := by
  rw [addScore_score, addScore_highScore]
  refine ⟨by linarith, ?_, ?_⟩
  · split_ifs with hc
    · exact (max_eq_right (le_of_lt hc)).symm
    · exact (max_eq_left (not_lt.1 hc)).symm
  · split_ifs with hc
    · exact le_of_lt hc
    · exact le_refl _

/-- Witness for C7 at a concrete state and amount. -/
theorem addScore_monotone_witness :
    (⟨0, 3, 1, 0, []⟩ : GameState).score
        ≤ ((⟨0, 3, 1, 0, []⟩ : GameState).addScore 100).score
    ∧ ((⟨0, 3, 1, 0, []⟩ : GameState).addScore 100).highScore =
        max (⟨0, 3, 1, 0, []⟩ : GameState).highScore
          ((⟨0, 3, 1, 0, []⟩ : GameState).addScore 100).score
    ∧ (⟨0, 3, 1, 0, []⟩ : GameState).highScore
        ≤ ((⟨0, 3, 1, 0, []⟩ : GameState).addScore 100).highScore :=
  addScore_monotone ⟨0, 3, 1, 0, []⟩ 100 (by norm_num)

/-! ## C9: lives clamped to [0, 9] -/

/-- C9: `lives` stays in [0, 9]: `loseLife` at 0 stays 0, `gainLife` at 9
stays 9, and both calls preserve the interval. -/
theorem lives_clamped (gs : GameState) :
    (gs.lives = 0 → gs.loseLife.lives = 0)
    ∧ (gs.lives = 9 → gs.gainLife.lives = 9)
    ∧ (0 ≤ gs.lives → gs.lives ≤ 9 →
        (0 ≤ gs.loseLife.lives ∧ gs.loseLife.lives ≤ 9)
        ∧ (0 ≤ gs.gainLife.lives ∧ gs.gainLife.lives ≤ 9)) := by
  unfold GameState.loseLife GameState.gainLife
  refine ⟨?_, ?_, ?_⟩
  · intro h
    simp only [h]
    norm_num
  · intro h
    simp only [h]
    norm_num
  · intro h0 h9
    refine ⟨⟨le_max_left _ _, max_le (by norm_num) (by linarith)⟩,
      ⟨le_min (by norm_num) (by linarith), min_le_left _ _⟩⟩

/-- Witness for C9 at the boundary states. -/
theorem lives_clamped_witness :
    ((⟨0, 0, 1, 0, []⟩ : GameState).loseLife).lives = 0 ∧
    ((⟨0, 9, 1, 0, []⟩ : GameState).gainLife).lives = 9 :=
  ⟨(lives_clamped ⟨0, 0, 1, 0, []⟩).1 rfl, (lives_clamped ⟨0, 9, 1, 0, []⟩).2.1 rfl⟩

/-! ## C8: takeDamage -/

/-- C8: `takeDamage` is a no-op while the player is invulnerable
(invulnerability timer positive or invincible timer present); otherwise it
sets a 2-second invulnerability window and the fixed knockback impulse
opposite the facing direction. -/
theorem takeDamage_spec (p : Player) :
    (p.isInvulnerable = true → p.takeDamage = p)
    ∧ (p.isInvulnerable = false →
        p.takeDamage =
          { p with invulnerabilityTimer := 2,
                   velocity := ⟨if p.facingRight then -200 else 200, -150⟩ }) := by
  unfold Player.takeDamage
  constructor
  · intro h
    rw [if_pos h]
  · intro h
    rw [if_neg (by simp [h])]

/-- Witness for C8 at a concrete vulnerable player. -/
theorem takeDamage_spec_witness :
    (mkPlayer 0 0).takeDamage =
      { (mkPlayer 0 0) with
        invulnerabilityTimer := 2,
        velocity := ⟨if (mkPlayer 0 0).facingRight then -200 else 200, -150⟩ } :=
  (takeDamage_spec (mkPlayer 0 0)).2 (by simp [Player.isInvulnerable, mkPlayer])

/-! ## C5: collectible generation skips draws inside platforms -/

theorem generateCollectiblesAux_length_le (platforms : List Platform)
    (rand : ℕ → ℚ) :
    ∀ attempts k, (generateCollectiblesAux platforms rand attempts k).length ≤ attempts := by
  intro attempts
  induction attempts with
  | zero => intro k; simp [generateCollectiblesAux]
  | succ n ih =>
    intro k
    simp only [generateCollectiblesAux]
    split
    · exact le_trans (ih _) (Nat.le_succ n)
    · simp only [List.length_cons]
      exact Nat.add_le_add_right (ih _) 1

theorem generateCollectiblesAux_outside (platforms : List Platform)
    (rand : ℕ → ℚ) :
    ∀ attempts k, ((generateCollectiblesAux platforms rand attempts k).all
      fun c => !(insideSomePlatform platforms c.x c.y)) = true := by
  intro attempts
  induction attempts with
  | zero => intro k; simp [generateCollectiblesAux]
  | succ n ih =>
    intro k
    simp only [generateCollectiblesAux]
    split
    · exact ih _
    · next h =>
      simp only [List.all_cons, Bool.and_eq_true]
      refine ⟨?_, ih _⟩
      simp only [Bool.not_eq_true] at h ⊢
      simpa using h

/-- C5: collectible generation makes `15 + 3·N` placement attempts and skips
any draw that lands inside a platform's rectangle: the resulting list has at
most `15 + 3·N` entries and none of them lies inside any platform. -/
theorem generateCollectibles_spec (levelNumber : ℕ) (platforms : List Platform)
    (rand : ℕ → ℚ) :
    (generateCollectibles levelNumber platforms rand).length ≤ 15 + levelNumber * 3
    ∧ ((generateCollectibles levelNumber platforms rand).all
        fun c => !(insideSomePlatform platforms c.x c.y)) = true :=
  ⟨generateCollectiblesAux_length_le platforms rand (15 + levelNumber * 3) 0,
   generateCollectiblesAux_outside platforms rand (15 + levelNumber * 3) 0⟩

/-! ## C4: platform generation -/

/-- Counterexample to C4 as stated: at level 1 the generator produces 16
ground platforms (one 128-pixel tile each), not exactly one. -/
theorem generatePlatforms_ground_not_one :
    ((generatePlatforms 1 rand0 rand0).countP
        fun pl => decide (pl.type = PlatformType.ground)) = 16
    ∧ (16 : ℕ) ≠ 1 := by
  constructor
  · simp only [generatePlatforms, List.countP_append]
    rw [List.countP_eq_length.2, List.countP_eq_zero.2, List.countP_eq_zero.2]
    · simp [groundPlatforms]
    · intro a ha
      simp only [movingPlatforms] at ha
      rw [if_neg (by norm_num)] at ha
      simp at ha
    · intro a ha
      simp only [floatingPlatforms, List.mem_map] at ha
      obtain ⟨i, _, rfl⟩ := ha
      simp
    · intro a ha
      simp only [groundPlatforms, List.mem_map] at ha
      obtain ⟨i, _, rfl⟩ := ha
      simp
  · norm_num

/-- C4 (amended): for every level number and every random/sine stream, the
ground platforms of `generatePlatforms` are exactly the 16-tile contiguous
row covering the full 2048 width with no horizontal gaps (not a single
platform), there are exactly `8 + 2·min(N,5)` floating platforms, and there
are exactly 2 moving platforms iff `N ≥ 3` (0 otherwise). -/
theorem generatePlatforms_spec (levelNumber : ℕ) (rand sinTable : ℕ → ℚ) :
    ((generatePlatforms levelNumber rand sinTable).filter
        fun pl => decide (pl.type = PlatformType.ground)) = groundPlatforms
    ∧ groundPlatforms.length = 16
    ∧ tilesFrom 0 groundPlatforms = true
    ∧ ((generatePlatforms levelNumber rand sinTable).countP
        fun pl => decide (pl.type = PlatformType.floating)) = 8 + 2 * min levelNumber 5
    ∧ (((generatePlatforms levelNumber rand sinTable).countP
        fun pl => decide (pl.type = PlatformType.moving)) = 2 ↔ 3 ≤ levelNumber) := by
  have hgm : ∀ a ∈ movingPlatforms levelNumber, a.type = PlatformType.moving := by
    intro a ha
    simp only [movingPlatforms] at ha
    split_ifs at ha with h3
    · simp only [List.mem_map] at ha
      obtain ⟨i, _, rfl⟩ := ha
      rfl
    · simp at ha
  have hgf : ∀ a ∈ floatingPlatforms levelNumber rand sinTable,
      a.type = PlatformType.floating := by
    intro a ha
    simp only [floatingPlatforms, List.mem_map] at ha
    obtain ⟨i, _, rfl⟩ := ha
    rfl
  have hgg : ∀ a ∈ groundPlatforms, a.type = PlatformType.ground := by
    intro a ha
    simp only [groundPlatforms, List.mem_map] at ha
    obtain ⟨i, _, rfl⟩ := ha
    rfl
  refine ⟨?_, by simp only [groundPlatforms, List.length_map, List.length_range], ?_, ?_, ?_⟩
  · simp only [generatePlatforms, List.filter_append]
    rw [List.filter_eq_self.2, List.filter_eq_nil_iff.2, List.filter_eq_nil_iff.2]
    · simp
    · intro a ha
      simp [hgm a ha]
    · intro a ha
      simp [hgf a ha]
    · intro a ha
      simp [hgg a ha]
  · norm_num [tilesFrom, groundPlatforms, List.range_succ, levelHeight, levelWidth]
  · simp only [generatePlatforms, List.countP_append]
    rw [List.countP_eq_zero.2 (fun a ha => by simp [hgg a ha]),
      List.countP_eq_length.2 (fun a ha => by simp [hgf a ha]),
      List.countP_eq_zero.2 (fun a ha => by simp [hgm a ha])]
    simp only [floatingPlatforms, List.length_map, List.length_range]
    ring
  · have hz1 : List.countP (fun pl => decide (pl.type = PlatformType.moving))
        groundPlatforms = 0 :=
      List.countP_eq_zero.2 (fun a ha => by simp [hgg a ha])
    have hz2 : List.countP (fun pl => decide (pl.type = PlatformType.moving))
        (floatingPlatforms levelNumber rand sinTable) = 0 :=
      List.countP_eq_zero.2 (fun a ha => by simp [hgf a ha])
    have hm2 : 3 ≤ levelNumber →
        List.countP (fun pl => decide (pl.type = PlatformType.moving))
          (movingPlatforms levelNumber) = 2 := by
      intro h3
      simp only [movingPlatforms, if_pos h3]
      rw [List.countP_eq_length.2]
      · simp only [List.length_map, List.length_range]
      · intro a ha
        simp only [List.mem_map] at ha
        obtain ⟨i, _, rfl⟩ := ha
        simp
    have hm0 : ¬ 3 ≤ levelNumber →
        List.countP (fun pl => decide (pl.type = PlatformType.moving))
          (movingPlatforms levelNumber) = 0 := by
      intro h3
      simp [movingPlatforms, if_neg h3]
    simp only [generatePlatforms, List.countP_append, hz1, hz2]
    by_cases h3 : 3 ≤ levelNumber
    · simp [hm2 h3, h3]
    · simp [hm0 h3, h3]

/-! ## C1: player resolution against a single platform -/

/-- C1: resolving the player against a single intersecting stationary
platform corrects exactly the smaller-overlap axis (never both), leaves the
player's rectangle no longer intersecting the platform, and on the vertical
axis distinguishes landing on top (snap to top, zero vertical velocity, set
grounded) from hitting the underside (snap to bottom, zero vertical
velocity, grounded stays false). -/
theorem player_single_platform_resolution (p : Player) (pl : Platform)
    (h : p.getBounds.intersects pl.getBounds = true) :
    ((min (p.getBounds.right - pl.getBounds.left) (pl.getBounds.right - p.getBounds.left) <
        min (p.getBounds.bottom - pl.getBounds.top) (pl.getBounds.bottom - p.getBounds.top) →
      (p.checkPlatformCollisions [pl]).x ≠ p.x ∧ (p.checkPlatformCollisions [pl]).y = p.y)
     ∧ (¬ min (p.getBounds.right - pl.getBounds.left) (pl.getBounds.right - p.getBounds.left) <
        min (p.getBounds.bottom - pl.getBounds.top) (pl.getBounds.bottom - p.getBounds.top) →
      (p.checkPlatformCollisions [pl]).x = p.x ∧ (p.checkPlatformCollisions [pl]).y ≠ p.y))
    ∧ (p.checkPlatformCollisions [pl]).getBounds.intersects pl.getBounds = false
    ∧ (¬ min (p.getBounds.right - pl.getBounds.left) (pl.getBounds.right - p.getBounds.left) <
        min (p.getBounds.bottom - pl.getBounds.top) (pl.getBounds.bottom - p.getBounds.top) →
      (p.getBounds.centerY < pl.getBounds.centerY →
        (p.checkPlatformCollisions [pl]).y = pl.getBounds.top - p.height
        ∧ (p.checkPlatformCollisions [pl]).velocity.y = 0
        ∧ (p.checkPlatformCollisions [pl]).isGrounded = true)
      ∧ (¬ p.getBounds.centerY < pl.getBounds.centerY →
        (p.checkPlatformCollisions [pl]).y = pl.getBounds.bottom
        ∧ (p.checkPlatformCollisions [pl]).velocity.y = 0
        ∧ (p.checkPlatformCollisions [pl]).isGrounded = false)) := by
  obtain ⟨h1, h2, h3, h4⟩ := (intersects_eq_true_iff _ _).1 h
  have hq : p.checkPlatformCollisions [pl] =
      resolvePlayerAgainst p.getBounds pl.getBounds { p with isGrounded := false } := by
    simp [Player.checkPlatformCollisions]
  rw [hq]
  unfold resolvePlayerAgainst
  rw [if_pos h]
  simp only [Player.getBounds, Platform.getBounds, Rectangle.left, Rectangle.right,
    Rectangle.top, Rectangle.bottom, Rectangle.centerX, Rectangle.centerY] at h1 h2 h3 h4 ⊢
  split_ifs with hov hcx hcy
  · -- horizontal resolution, snap to the platform's left edge
    refine ⟨⟨fun _ => ⟨by simp; linarith, by simp⟩, fun hno => absurd hov hno⟩, ?_,
      fun hno => absurd hov hno⟩
    rw [intersects_eq_false_iff]
    simp only [Player.getBounds, Platform.getBounds, Rectangle.left, Rectangle.right,
      Rectangle.top, Rectangle.bottom]
    exact Or.inl (by simp)
  · -- horizontal resolution, snap to the platform's right edge
    refine ⟨⟨fun _ => ⟨by simp; linarith, by simp⟩, fun hno => absurd hov hno⟩, ?_,
      fun hno => absurd hov hno⟩
    rw [intersects_eq_false_iff]
    simp only [Player.getBounds, Platform.getBounds, Rectangle.left, Rectangle.right,
      Rectangle.top, Rectangle.bottom]
    exact Or.inr (Or.inl (by simp))
  · -- vertical resolution, landed on top
    refine ⟨⟨fun hyes => absurd hyes hov, fun _ => ⟨by simp, by simp; linarith⟩⟩, ?_,
      fun _ => ⟨fun _ => ⟨by simp, by simp, by simp⟩, fun hno => absurd hcy hno⟩⟩
    rw [intersects_eq_false_iff]
    simp only [Player.getBounds, Platform.getBounds, Rectangle.left, Rectangle.right,
      Rectangle.top, Rectangle.bottom]
    exact Or.inr (Or.inr (Or.inl (by simp)))
  · -- vertical resolution, hit the underside
    refine ⟨⟨fun hyes => absurd hyes hov, fun _ => ⟨by simp, by simp; linarith⟩⟩, ?_,
      fun _ => ⟨fun hyes => absurd hyes hcy, fun _ => ⟨by simp, by simp, by simp⟩⟩⟩
    rw [intersects_eq_false_iff]
    simp only [Player.getBounds, Platform.getBounds, Rectangle.left, Rectangle.right,
      Rectangle.top, Rectangle.bottom]
    exact Or.inr (Or.inr (Or.inr (by simp)))

/-- Witness for C1: the landing scenario resolves vertically onto the
platform top. -/
theorem player_single_platform_resolution_witness :
    (landingPlayer.checkPlatformCollisions [landingPlatform]).y
        = landingPlatform.getBounds.top - landingPlayer.height
    ∧ (landingPlayer.checkPlatformCollisions [landingPlatform]).velocity.y = 0
    ∧ (landingPlayer.checkPlatformCollisions [landingPlatform]).isGrounded = true := by
  have H := player_single_platform_resolution landingPlayer landingPlatform
    (by norm_num [Rectangle.intersects, Player.getBounds, Platform.getBounds,
      Rectangle.left, Rectangle.right, Rectangle.top, Rectangle.bottom,
      landingPlayer, landingPlatform, mkPlayer])
  exact (H.2.2 (by norm_num [Player.getBounds, Platform.getBounds, Rectangle.left,
      Rectangle.right, Rectangle.top, Rectangle.bottom, landingPlayer, landingPlatform,
      mkPlayer, min_def])).1
    (by norm_num [Player.getBounds, Platform.getBounds, Rectangle.centerY,
      landingPlayer, landingPlatform, mkPlayer])

/-! ## C3: enemy platform resolution versus the player's -/

/-- Counterexample to C3 as stated: on the same underside-contact geometry
the player's method snaps to the platform bottom and zeroes the vertical
velocity, while the enemy's method changes nothing and stays intersecting. -/
theorem enemy_underside_differs_from_player :
    (undersideEnemy.checkPlatformCollisions [undersidePlatform]).y = undersideEnemy.y
    ∧ (undersideEnemy.checkPlatformCollisions [undersidePlatform]).velocity.y
        = undersideEnemy.velocity.y
    ∧ ((undersideEnemy.checkPlatformCollisions [undersidePlatform]).getBounds.intersects
        undersidePlatform.getBounds) = true
    ∧ (undersidePlayer.checkPlatformCollisions [undersidePlatform]).y
        = undersidePlatform.getBounds.bottom
    ∧ (undersidePlayer.checkPlatformCollisions [undersidePlatform]).velocity.y = 0
    ∧ undersideEnemy.y ≠ undersidePlatform.getBounds.bottom := by
  norm_num [Enemy.checkPlatformCollisions, Player.checkPlatformCollisions,
    resolveEnemyAgainst, resolvePlayerAgainst, Enemy.getBounds, Player.getBounds,
    Platform.getBounds, Rectangle.intersects, Rectangle.left, Rectangle.right,
    Rectangle.top, Rectangle.bottom, Rectangle.centerX, Rectangle.centerY,
    undersideEnemy, undersidePlayer, undersidePlatform, mkPlayer, min_def]

theorem resolveEnemyAgainst_eq (eb r : Rectangle) (p : Enemy)
    (h : eb.intersects r = true) :
    resolveEnemyAgainst eb r p =
      if min (eb.right - r.left) (r.right - eb.left) <
          min (eb.bottom - r.top) (r.bottom - eb.top) then
        (if eb.centerX < r.centerX then
          { p with direction := -p.direction, x := r.left - p.width }
        else
          { p with direction := -p.direction, x := r.right })
      else
        (if eb.centerY < r.centerY then
          { p with y := r.top - p.height, velocity := ⟨p.velocity.x, 0⟩,
                   isGrounded := true }
        else p) := by
  unfold resolveEnemyAgainst
  rw [if_pos h]

/-- C3 (amended): ground-enemy platform resolution uses the same
smaller-overlap axis choice as the player's method and the same landed-on-top
outcome (snap to top, zero vertical velocity, set grounded); it differs on
the other branches: horizontal contact reverses direction and snaps the x
position but does not zero the horizontal velocity, and underside contact
performs no correction at all (position, velocity and direction unchanged,
grounded false). -/
theorem enemy_platform_resolution (e : Enemy) (pl : Platform)
    (h : e.getBounds.intersects pl.getBounds = true) :
    (min (e.getBounds.right - pl.getBounds.left) (pl.getBounds.right - e.getBounds.left) <
        min (e.getBounds.bottom - pl.getBounds.top) (pl.getBounds.bottom - e.getBounds.top) →
      (e.checkPlatformCollisions [pl]).direction = -e.direction
      ∧ (e.checkPlatformCollisions [pl]).x =
          (if e.getBounds.centerX < pl.getBounds.centerX then pl.getBounds.left - e.width
           else pl.getBounds.right)
      ∧ (e.checkPlatformCollisions [pl]).y = e.y
      ∧ (e.checkPlatformCollisions [pl]).velocity = e.velocity)
    ∧ (¬ min (e.getBounds.right - pl.getBounds.left) (pl.getBounds.right - e.getBounds.left) <
        min (e.getBounds.bottom - pl.getBounds.top) (pl.getBounds.bottom - e.getBounds.top) →
      (e.getBounds.centerY < pl.getBounds.centerY →
        (e.checkPlatformCollisions [pl]).y = pl.getBounds.top - e.height
        ∧ (e.checkPlatformCollisions [pl]).velocity.y = 0
        ∧ (e.checkPlatformCollisions [pl]).isGrounded = true
        ∧ (e.checkPlatformCollisions [pl]).x = e.x
        ∧ (e.checkPlatformCollisions [pl]).direction = e.direction)
      ∧ (¬ e.getBounds.centerY < pl.getBounds.centerY →
        (e.checkPlatformCollisions [pl]).x = e.x
        ∧ (e.checkPlatformCollisions [pl]).y = e.y
        ∧ (e.checkPlatformCollisions [pl]).velocity = e.velocity
        ∧ (e.checkPlatformCollisions [pl]).direction = e.direction
        ∧ (e.checkPlatformCollisions [pl]).isGrounded = false)) := by
  have hq : e.checkPlatformCollisions [pl] =
      resolveEnemyAgainst e.getBounds pl.getBounds { e with isGrounded := false } := by
    simp [Enemy.checkPlatformCollisions]
  rw [hq, resolveEnemyAgainst_eq _ _ _ h]
  by_cases hov : min (e.getBounds.right - pl.getBounds.left)
      (pl.getBounds.right - e.getBounds.left) <
      min (e.getBounds.bottom - pl.getBounds.top) (pl.getBounds.bottom - e.getBounds.top)
  · rw [if_pos hov]
    refine ⟨fun _ => ?_, fun hno => absurd hov hno⟩
    by_cases hcx : e.getBounds.centerX < pl.getBounds.centerX
    · rw [if_pos hcx, if_pos hcx]
      exact ⟨rfl, rfl, rfl, rfl⟩
    · rw [if_neg hcx, if_neg hcx]
      exact ⟨rfl, rfl, rfl, rfl⟩
  · rw [if_neg hov]
    refine ⟨fun hyes => absurd hyes hov, fun _ => ?_⟩
    by_cases hcy : e.getBounds.centerY < pl.getBounds.centerY
    · rw [if_pos hcy]
      exact ⟨fun _ => ⟨rfl, rfl, rfl, rfl, rfl⟩, fun hno => absurd hcy hno⟩
    · rw [if_neg hcy]
      exact ⟨fun hyes => absurd hyes hcy, fun _ => ⟨rfl, rfl, rfl, rfl, rfl⟩⟩

/-- Witness for C3 (amended): the patrol enemy lands on the floor exactly as
the player does. -/
theorem enemy_platform_resolution_witness :
    (patrolEnemy.checkPlatformCollisions [landingPlatform]).y
        = landingPlatform.getBounds.top - patrolEnemy.height
    ∧ (patrolEnemy.checkPlatformCollisions [landingPlatform]).velocity.y = 0
    ∧ (patrolEnemy.checkPlatformCollisions [landingPlatform]).isGrounded = true := by
  have H := enemy_platform_resolution patrolEnemy landingPlatform
    (by norm_num [Rectangle.intersects, Enemy.getBounds, Platform.getBounds,
      Rectangle.left, Rectangle.right, Rectangle.top, Rectangle.bottom,
      patrolEnemy, landingPlatform])
  obtain ⟨hy, hv, hg, _, _⟩ := (H.2 (by norm_num [Enemy.getBounds, Platform.getBounds,
      Rectangle.left, Rectangle.right, Rectangle.top, Rectangle.bottom,
      patrolEnemy, landingPlatform, min_def])).1
    (by norm_num [Enemy.getBounds, Platform.getBounds, Rectangle.centerY,
      patrolEnemy, landingPlatform])
  exact ⟨hy, hv, hg⟩

/-! ## C2 machinery: the update phases seen through the stat projection -/

theorem stats_handleInput (p : Player) (input : Input) (dt : ℚ) :
    (p.handleInput input dt).stats = p.stats := rfl

theorem stats_resolvePlayerAgainst (pb r : Rectangle) (q : Player) :
    (resolvePlayerAgainst pb r q).stats = q.stats := by
  unfold resolvePlayerAgainst
  simp only []
  split_ifs <;> rfl

theorem stats_checkPlatformCollisions (p : Player) (l : List Platform) :
    (p.checkPlatformCollisions l).stats = p.stats := by
  have haux : ∀ (l2 : List Platform) (q : Player),
      (l2.foldl (fun acc platform => resolvePlayerAgainst p.getBounds
        platform.getBounds acc) q).stats = q.stats := by
    intro l2
    induction l2 with
    | nil => intro q; rfl
    | cons a l2 ih =>
      intro q
      rw [List.foldl_cons, ih, stats_resolvePlayerAgainst]
  exact (haux l { p with isGrounded := false }).trans rfl

theorem stats_updatePhysics (p : Player) (dt : ℚ) (level : Level) :
    (p.updatePhysics dt level).stats = p.stats := by
  simp only [Player.updatePhysics, Player.respawn]
  split_ifs
  · exact stats_checkPlatformCollisions _ _
  · exact stats_checkPlatformCollisions _ _

theorem stats_updateAnimation (p : Player) (dt : ℚ) :
    (p.updateAnimation dt).stats = p.stats := by
  unfold Player.updateAnimation
  simp only []
  split_ifs <;> rfl

theorem stats_updateInvulnerability (p : Player) (dt : ℚ) :
    (p.updateInvulnerability dt).stats = p.stats := by
  unfold Player.updateInvulnerability
  split_ifs <;> rfl

theorem stats_tickPowerUp (dt : ℚ) (p : Player) (t : PowerUpType) :
    (tickPowerUp dt p t).stats = tickStats dt p.stats t := by
  cases h : p.powerUpTimers t with
  | none => simp only [tickPowerUp, tickStats, Player.stats, h]
  | some tv =>
    simp only [tickPowerUp, tickStats, Player.stats, h]
    split_ifs with hexp
    · cases t <;> rfl
    · rfl

theorem stats_updatePowerUps (p : Player) (dt : ℚ) :
    (p.updatePowerUps dt).stats = tickAllStats dt p.stats := by
  simp only [Player.updatePowerUps, tickAllStats, List.foldl_cons, List.foldl_nil,
    stats_tickPowerUp]

theorem stats_update (p : Player) (dt : ℚ) (input : Input) (level : Level) :
    (p.update dt input level).stats = tickAllStats dt p.stats := by
  unfold Player.update
  rw [stats_updateInvulnerability, stats_updateAnimation, stats_updatePowerUps,
    stats_updatePhysics, stats_handleInput]

theorem stats_runUpdates (level : Level) :
    ∀ (steps : List (ℚ × Input)) (p : Player),
      (runUpdates level p steps).stats = runStats (steps.map Prod.fst) p.stats := by
  intro steps
  induction steps with
  | nil => intro p; rfl
  | cons s steps ih =>
    intro p
    have hstep : runUpdates level p (s :: steps)
        = runUpdates level (p.update s.1 s.2 level) steps := rfl
    rw [hstep, ih, stats_update]
    rfl

/-! ## C2 machinery: single ticks on the stat projection -/

theorem tickStats_pbase (dt : ℚ) (s : PStats) (t2 t : PowerUpType) :
    pbaseOf t (tickStats dt s t2) = pbaseOf t s := by
  cases h : s.timers t2 with
  | none => simp only [tickStats, h]
  | some tv =>
    simp only [tickStats, h]
    split_ifs with hexp
    · cases t2 <;> cases t <;> rfl
    · cases t <;> rfl

theorem tickStats_other (dt : ℚ) (s : PStats) {t2 t : PowerUpType} (hne : t2 ≠ t) :
    (tickStats dt s t2).timers t = s.timers t
    ∧ pstatOf t (tickStats dt s t2) = pstatOf t s := by
  cases h : s.timers t2 with
  | none => simp [tickStats, h]
  | some tv =>
    simp only [tickStats, h]
    split_ifs with hexp
    · refine ⟨?_, ?_⟩
      · cases t2 <;> cases t <;> first | exact absurd rfl hne | rfl
      · cases t2 <;> cases t <;> first | exact absurd rfl hne | rfl
    · refine ⟨?_, ?_⟩
      · cases t2 <;> cases t <;> first | exact absurd rfl hne | rfl
      · cases t <;> rfl

theorem tickStats_self (dt : ℚ) (s : PStats) (t : PowerUpType) :
    (s.timers t = none → tickStats dt s t = s)
    ∧ (∀ tv, s.timers t = some tv →
        (tv - dt ≤ 0 → (tickStats dt s t).timers t = none
          ∧ pstatOf t (tickStats dt s t) = pbaseOf t s)
        ∧ (¬ tv - dt ≤ 0 → (tickStats dt s t).timers t = some (tv - dt)
          ∧ pstatOf t (tickStats dt s t) = pstatOf t s)) := by
  constructor
  · intro h
    simp only [tickStats, h]
  · intro tv h
    simp only [tickStats, h]
    constructor
    · intro hexp
      rw [if_pos hexp]
      refine ⟨?_, ?_⟩
      · show mapDelete (removeStats s t).timers t t = none
        simp [mapDelete]
      · cases t <;> rfl
    · intro hexp
      rw [if_neg hexp]
      refine ⟨?_, ?_⟩
      · show mapSet s.timers t (tv - dt) t = some (tv - dt)
        simp [mapSet]
      · cases t <;> rfl

theorem ticks_other_list (dt : ℚ) {t : PowerUpType} :
    ∀ (L : List PowerUpType), t ∉ L → ∀ s : PStats,
      (L.foldl (tickStats dt) s).timers t = s.timers t
      ∧ pstatOf t (L.foldl (tickStats dt) s) = pstatOf t s := by
  intro L
  induction L with
  | nil => intro _ s; exact ⟨rfl, rfl⟩
  | cons a L ih =>
    intro hmem s
    have ha : a ≠ t := fun hEq => hmem (hEq ▸ List.mem_cons_self a L)
    have hL : t ∉ L := fun hmem2 => hmem (List.mem_cons_of_mem a hmem2)
    obtain ⟨h1, h2⟩ := tickStats_other dt s ha
    obtain ⟨g1, g2⟩ := ih hL (tickStats dt s a)
    rw [List.foldl_cons]
    exact ⟨g1.trans h1, g2.trans h2⟩

theorem ticks_pbase_list (dt : ℚ) (t : PowerUpType) :
    ∀ (L : List PowerUpType) (s : PStats),
      pbaseOf t (L.foldl (tickStats dt) s) = pbaseOf t s := by
  intro L
  induction L with
  | nil => intro s; rfl
  | cons a L ih =>
    intro s
    rw [List.foldl_cons, ih, tickStats_pbase]

theorem foldl_tick_decomp (dt : ℚ) (t : PowerUpType) (pre post : List PowerUpType)
    (hpre : t ∉ pre) (hpost : t ∉ post) (s : PStats) :
    (s.timers t = none →
      ((pre ++ t :: post).foldl (tickStats dt) s).timers t = none
      ∧ pstatOf t ((pre ++ t :: post).foldl (tickStats dt) s) = pstatOf t s)
    ∧ (∀ tv, s.timers t = some tv →
        (tv - dt ≤ 0 →
          ((pre ++ t :: post).foldl (tickStats dt) s).timers t = none
          ∧ pstatOf t ((pre ++ t :: post).foldl (tickStats dt) s) = pbaseOf t s)
        ∧ (¬ tv - dt ≤ 0 →
          ((pre ++ t :: post).foldl (tickStats dt) s).timers t = some (tv - dt)
          ∧ pstatOf t ((pre ++ t :: post).foldl (tickStats dt) s) = pstatOf t s)) := by
  have hfold : (pre ++ t :: post).foldl (tickStats dt) s
      = post.foldl (tickStats dt) (tickStats dt (pre.foldl (tickStats dt) s) t) := by
    rw [List.foldl_append, List.foldl_cons]
  obtain ⟨p1, p2⟩ := ticks_other_list dt pre hpre s
  constructor
  · intro h
    have h1 : (pre.foldl (tickStats dt) s).timers t = none := p1.trans h
    have hself : tickStats dt (pre.foldl (tickStats dt) s) t = pre.foldl (tickStats dt) s :=
      (tickStats_self dt _ t).1 h1
    rw [hfold, hself]
    obtain ⟨q1, q2⟩ := ticks_other_list dt post hpost (pre.foldl (tickStats dt) s)
    exact ⟨q1.trans h1, q2.trans p2⟩
  · intro tv h
    have h1 : (pre.foldl (tickStats dt) s).timers t = some tv := p1.trans h
    obtain ⟨hexpc, hliv⟩ := (tickStats_self dt _ t).2 tv h1
    obtain ⟨q1, q2⟩ :=
      ticks_other_list dt post hpost (tickStats dt (pre.foldl (tickStats dt) s) t)
    constructor
    · intro hexp
      obtain ⟨e1, e2⟩ := hexpc hexp
      rw [hfold]
      refine ⟨q1.trans e1, ?_⟩
      rw [q2, e2]
      exact ticks_pbase_list dt t pre s
    · intro hexp
      obtain ⟨e1, e2⟩ := hliv hexp
      rw [hfold]
      exact ⟨q1.trans e1, (q2.trans e2).trans p2⟩

theorem tickAllStats_at (dt : ℚ) (s : PStats) (t : PowerUpType) :
    (s.timers t = none →
      (tickAllStats dt s).timers t = none
      ∧ pstatOf t (tickAllStats dt s) = pstatOf t s)
    ∧ (∀ tv, s.timers t = some tv →
        (tv - dt ≤ 0 → (tickAllStats dt s).timers t = none
          ∧ pstatOf t (tickAllStats dt s) = pbaseOf t s)
        ∧ (¬ tv - dt ≤ 0 → (tickAllStats dt s).timers t = some (tv - dt)
          ∧ pstatOf t (tickAllStats dt s) = pstatOf t s)) := by
  cases t with
  | speed =>
    exact foldl_tick_decomp dt PowerUpType.speed []
      [PowerUpType.jump, PowerUpType.size, PowerUpType.invincible]
      (by decide) (by decide) s
  | jump =>
    exact foldl_tick_decomp dt PowerUpType.jump [PowerUpType.speed]
      [PowerUpType.size, PowerUpType.invincible] (by decide) (by decide) s
  | size =>
    exact foldl_tick_decomp dt PowerUpType.size
      [PowerUpType.speed, PowerUpType.jump] [PowerUpType.invincible]
      (by decide) (by decide) s
  | invincible =>
    exact foldl_tick_decomp dt PowerUpType.invincible
      [PowerUpType.speed, PowerUpType.jump, PowerUpType.size] []
      (by decide) (by decide) s

theorem tickAllStats_pbase (dt : ℚ) (s : PStats) (t : PowerUpType) :
    pbaseOf t (tickAllStats dt s) = pbaseOf t s :=
  ticks_pbase_list dt t
    [PowerUpType.speed, PowerUpType.jump, PowerUpType.size, PowerUpType.invincible] s

theorem runStats_absent (t : PowerUpType) :
    ∀ (dts : List ℚ) (s : PStats), s.timers t = none →
      (runStats dts s).timers t = none ∧ pstatOf t (runStats dts s) = pstatOf t s := by
  intro dts
  induction dts with
  | nil => intro s h; exact ⟨h, rfl⟩
  | cons dt dts ih =>
    intro s h
    obtain ⟨h1, h2⟩ := (tickAllStats_at dt s t).1 h
    obtain ⟨g1, g2⟩ := ih (tickAllStats dt s) h1
    exact ⟨g1, g2.trans h2⟩

theorem runStats_present (t : PowerUpType) :
    ∀ (dts : List ℚ) (s : PStats) (tv : ℚ), s.timers t = some tv → 0 < tv →
      tv ≤ dts.sum →
      (runStats dts s).timers t = none ∧ pstatOf t (runStats dts s) = pbaseOf t s := by
  intro dts
  induction dts with
  | nil =>
    intro s tv h hpos hsum
    exfalso
    simp only [List.sum_nil] at hsum
    linarith
  | cons dt dts ih =>
    intro s tv h hpos hsum
    simp only [List.sum_cons] at hsum
    by_cases hexp : tv - dt ≤ 0
    · obtain ⟨e1, e2⟩ := ((tickAllStats_at dt s t).2 tv h).1 hexp
      obtain ⟨g1, g2⟩ := runStats_absent t dts (tickAllStats dt s) e1
      exact ⟨g1, g2.trans e2⟩
    · obtain ⟨e1, e2⟩ := ((tickAllStats_at dt s t).2 tv h).2 hexp
      have hsum2 : tv - dt ≤ dts.sum := by linarith
      obtain ⟨g1, g2⟩ := ih (tickAllStats dt s) (tv - dt) e1 (by linarith [not_le.1 hexp]) hsum2
      exact ⟨g1, g2.trans (tickAllStats_pbase dt s t)⟩

/-! ## C2: power-up duration and expiry -/

/-- C2: applying power-up kind `K` to a freshly constructed player sets its
timer to exactly 10 seconds, and after any sequence of updates totalling at
least 10 seconds with no re-application, `K` is absent from the timer map and
the stat `K` affects is back at its stored pre-power-up base value
(`invincible` has no separate stat and is governed by the timer map and the
invulnerability timer alone). -/
theorem powerup_duration_and_expiry (x y : ℚ) (t : PowerUpType) (level : Level)
    (steps : List (ℚ × Input)) (hsum : 10 ≤ (steps.map Prod.fst).sum) :
    ((mkPlayer x y).applyPowerUp t).powerUpTimers t = some 10
    ∧ (runUpdates level ((mkPlayer x y).applyPowerUp t) steps).powerUpTimers t = none
    ∧ statRestored t (mkPlayer x y)
        (runUpdates level ((mkPlayer x y).applyPowerUp t) steps) := by
  have htimer : ((mkPlayer x y).applyPowerUp t).powerUpTimers t = some 10 := by
    cases t <;> simp [Player.applyPowerUp, mapSet]
  have hstimer : (((mkPlayer x y).applyPowerUp t).stats).timers t = some 10 := htimer
  have hrun := runStats_present t (steps.map Prod.fst)
    ((mkPlayer x y).applyPowerUp t).stats 10 hstimer (by norm_num) hsum
  have hproj := stats_runUpdates level steps ((mkPlayer x y).applyPowerUp t)
  refine ⟨htimer, ?_, ?_⟩
  · have hnone : ((runUpdates level ((mkPlayer x y).applyPowerUp t) steps).stats).timers t
        = none := by
      rw [hproj]
      exact hrun.1
    exact hnone
  · have h2 : pstatOf t ((runUpdates level ((mkPlayer x y).applyPowerUp t) steps).stats)
        = pbaseOf t (((mkPlayer x y).applyPowerUp t).stats) := by
      rw [hproj]
      exact hrun.2
    cases t with
    | speed => exact ⟨congrArg Prod.fst h2, congrArg Prod.snd h2⟩
    | jump => exact congrArg Prod.fst h2
    | size => exact ⟨congrArg Prod.fst h2, congrArg Prod.snd h2⟩
    | invincible => trivial

/-- Witness for C2: the speed power-up applied to a fresh player expires
after a single 10-second update. -/
theorem powerup_duration_and_expiry_witness :
    ((mkPlayer 100 400).applyPowerUp PowerUpType.speed).powerUpTimers
        PowerUpType.speed = some 10
    ∧ (runUpdates emptyLevel ((mkPlayer 100 400).applyPowerUp PowerUpType.speed)
        [(10, Input.none)]).powerUpTimers PowerUpType.speed = none
    ∧ statRestored PowerUpType.speed (mkPlayer 100 400)
        (runUpdates emptyLevel ((mkPlayer 100 400).applyPowerUp PowerUpType.speed)
          [(10, Input.none)]) :=
  powerup_duration_and_expiry 100 400 PowerUpType.speed emptyLevel
    [(10, Input.none)] (by simp)

/-! ## C10: horizontal bounds after an update -/

theorem x_tickPowerUp (dt : ℚ) (p : Player) (t : PowerUpType) :
    (tickPowerUp dt p t).x = p.x := by
  cases h : p.powerUpTimers t with
  | none => simp only [tickPowerUp, h]
  | some tv =>
    simp only [tickPowerUp, h]
    split_ifs with hexp
    · cases t <;> rfl
    · rfl

theorem x_updatePowerUps (p : Player) (dt : ℚ) :
    (p.updatePowerUps dt).x = p.x := by
  simp only [Player.updatePowerUps, List.foldl_cons, List.foldl_nil, x_tickPowerUp]

theorem x_updateAnimation (p : Player) (dt : ℚ) :
    (p.updateAnimation dt).x = p.x := by
  unfold Player.updateAnimation
  simp only []
  split_ifs <;> rfl

theorem x_updateInvulnerability (p : Player) (dt : ℚ) :
    (p.updateInvulnerability dt).x = p.x := by
  unfold Player.updateInvulnerability
  split_ifs <;> rfl

theorem physTail_x_bounds (q1 : Player) (level : Level) (W : ℚ)
    (hwidth : q1.width = W) (h : W + 100 ≤ level.width) :
    0 ≤ (if ({ q1 with x := max 0 (min (level.width - q1.width) q1.x) } : Player).y >
          level.height + 100
        then ({ q1 with x := max 0 (min (level.width - q1.width) q1.x) } : Player).respawn
        else { q1 with x := max 0 (min (level.width - q1.width) q1.x) }).x
    ∧ (if ({ q1 with x := max 0 (min (level.width - q1.width) q1.x) } : Player).y >
          level.height + 100
        then ({ q1 with x := max 0 (min (level.width - q1.width) q1.x) } : Player).respawn
        else { q1 with x := max 0 (min (level.width - q1.width) q1.x) }).x
        ≤ level.width - W := by
  rw [hwidth]
  unfold Player.respawn
  split_ifs with hfall
  · exact ⟨by norm_num, by show (100 : ℚ) ≤ level.width - W; linarith⟩
  · refine ⟨le_max_left _ _, ?_⟩
    exact max_le (by linarith) (min_le_left _ _)

theorem updatePhysics_x_bounds (p : Player) (dt : ℚ) (level : Level)
    (h : p.width + 100 ≤ level.width) :
    0 ≤ (p.updatePhysics dt level).x
    ∧ (p.updatePhysics dt level).x ≤ level.width - p.width := by
  have hw : (Player.checkPlatformCollisions
      { p with velocity := ⟨p.velocity.x, p.velocity.y + playerGravity * dt⟩,
               x := p.x + p.velocity.x * dt,
               y := p.y + (p.velocity.y + playerGravity * dt) * dt }
      level.platforms).width = p.width :=
    congrArg PStats.width (stats_checkPlatformCollisions _ _)
  exact physTail_x_bounds _ level p.width hw h

/-- Counterexample to C10 as stated: a shrunk player clamped at the right
edge whose `size` power-up expires during the same update ends the update
with `x` beyond `level.width - width`. -/
theorem player_update_size_expiry_exceeds_bound :
    emptyLevel.width - (edgeSizePlayer.update (1 / 60) Input.none emptyLevel).width
      < (edgeSizePlayer.update (1 / 60) Input.none emptyLevel).x := by
  have hx : (edgeSizePlayer.update (1 / 60) Input.none emptyLevel).x = 2024 := by
    have h1 : (edgeSizePlayer.update (1 / 60) Input.none emptyLevel).x
        = ((edgeSizePlayer.handleInput Input.none (1 / 60)).updatePhysics
            (1 / 60) emptyLevel).x := by
      unfold Player.update
      rw [x_updateInvulnerability, x_updateAnimation, x_updatePowerUps]
    rw [h1]
    norm_num [Player.handleInput, Player.updatePhysics, Player.checkPlatformCollisions,
      Player.respawn, edgeSizePlayer, mkPlayer, emptyLevel, Input.none, playerGravity,
      playerFriction, levelWidth, levelHeight, List.foldl_nil, min_def, max_def]
  have hwidth : (edgeSizePlayer.update (1 / 60) Input.none emptyLevel).width = 32 := by
    have h2 : (edgeSizePlayer.update (1 / 60) Input.none emptyLevel).width
        = (tickAllStats (1 / 60) edgeSizePlayer.stats).width :=
      congrArg PStats.width (stats_update edgeSizePlayer (1 / 60) Input.none emptyLevel)
    rw [h2]
    have m1 : mapSet (fun _ => none) PowerUpType.size (1 / 1000) PowerUpType.speed
        = none := rfl
    have m2 : mapSet (fun _ => none) PowerUpType.size (1 / 1000) PowerUpType.jump
        = none := rfl
    have m3 : mapSet (fun _ => none) PowerUpType.size (1 / 1000) PowerUpType.size
        = some (1 / 1000) := rfl
    have m4 : mapDelete (mapSet (fun _ => none) PowerUpType.size (1 / 1000))
        PowerUpType.size PowerUpType.invincible = none := rfl
    norm_num [tickAllStats, tickStats, removeStats, Player.stats,
      edgeSizePlayer, mkPlayer, List.foldl_cons, List.foldl_nil, m1, m2, m3, m4]
  rw [hx, hwidth]
  norm_num [emptyLevel, levelWidth]

/-- C10 (amended): after `Player.update` against a level at least 100 pixels
wider than the player, `x` lies in `[0, level.width - w]` for `w` the width
the player had entering the update; with the width after the update the bound
fails exactly when the `size` power-up expires during that update. -/
theorem player_update_x_bounds (p : Player) (input : Input) (level : Level)
    (dt : ℚ) (h : p.width + 100 ≤ level.width) :
    0 ≤ (p.update dt input level).x
    ∧ (p.update dt input level).x ≤ level.width - p.width := by
  have hx : (p.update dt input level).x
      = ((p.handleInput input dt).updatePhysics dt level).x := by
    unfold Player.update
    rw [x_updateInvulnerability, x_updateAnimation, x_updatePowerUps]
  have hb := updatePhysics_x_bounds (p.handleInput input dt) dt level h
  rw [hx]
  exact ⟨hb.1, hb.2⟩

/-- Witness for C10 (amended) at a concrete fresh player. -/
theorem player_update_x_bounds_witness :
    0 ≤ ((mkPlayer 0 0).update (1 / 60) Input.none emptyLevel).x
    ∧ ((mkPlayer 0 0).update (1 / 60) Input.none emptyLevel).x
        ≤ emptyLevel.width - (mkPlayer 0 0).width :=
  player_update_x_bounds (mkPlayer 0 0) Input.none emptyLevel (1 / 60)
    (by norm_num [mkPlayer, emptyLevel, levelWidth])

end Nexus2D
